import Mathlib

/-!
# Verification of the Connection Liveness & Latency Telemetry Engine

Shallow embedding of the health-monitor and latency-tracking logic of the
DeepL Voice API / AWS Connect demo webapp:

* `ConnectionHealthMonitor` (src/webapp/managers/ConnectionHealthMonitor.js):
  quality state machine, VAD-adaptive zombie detection, reconnection
  backoff/attempt ledger, health snapshot.
* `AudioLatencyTrackManager` (src/unnamed/part_004): audio-chunk timeline,
  chunk/event correlation, bounded latency windows, statistics, and the
  single-consumer ingestion queue.

Timestamps of the health monitor (`Date.now()`) are modelled as integers
(milliseconds).  Timestamps and durations of the latency manager
(`performance.now()`, server audio offsets) are modelled as rationals, since
they may carry fractional milliseconds.  JavaScript `null` is modelled by
`Option`.  Callbacks (`onQualityChange`, `onReconnectNeeded`) and logging are
I/O and not part of the state; the reconnect-trigger decision is returned as a
`Bool`.
-/

/-- Connection quality states, from the state list documented in
ConnectionHealthMonitor.js (unknown, good, degraded, poor, dead,
reconnecting, offline). -/
inductive Quality where
  | unknown
  | good
  | degraded
  | poor
  | dead
  | reconnecting
  | offline
deriving DecidableEq, Repr

/-- The monitor configuration (`this.config` in the constructor). -/
structure HealthConfig where
  degradedThreshold : Int
  poorThreshold : Int
  zombieTimeoutSpeaking : Int
  zombieTimeoutSilent : Int
  speechGracePeriod : Int
  maxReconnectAttempts : Nat
  initialBackoff : Int
  maxBackoff : Int
deriving DecidableEq, Repr

/-- Default configuration from the exported constants
(DEGRADED_THRESHOLD_MS = 3000, POOR_THRESHOLD_MS = 5000,
ZOMBIE_DETECTION_TIMEOUT_SPEAKING_MS = 10000,
ZOMBIE_DETECTION_TIMEOUT_SILENT_MS = 60000, SPEECH_GRACE_PERIOD_MS = 5000,
MAX_RECONNECT_ATTEMPTS = 5, INITIAL_BACKOFF_MS = 1000,
MAX_BACKOFF_MS = 30000). -/
def defaultHealthConfig : HealthConfig :=
  { degradedThreshold := 3000
    poorThreshold := 5000
    zombieTimeoutSpeaking := 10000
    zombieTimeoutSilent := 60000
    speechGracePeriod := 5000
    maxReconnectAttempts := 5
    initialBackoff := 1000
    maxBackoff := 30000 }

/-- An entry of `this.stats.reconnections`
(`{timestamp, attempts, success, duration}`). -/
structure ReconnectionRecord where
  timestamp : Int
  attempts : Nat
  success : Bool
  duration : Int
deriving DecidableEq, Repr

/-- An entry of `this.stats.qualityHistory` (`{timestamp, quality}`). -/
structure QualitySnap where
  timestamp : Int
  quality : Quality
deriving DecidableEq, Repr

/-- The mutable state of a `ConnectionHealthMonitor` instance (timers and
callbacks excluded). -/
structure MonitorState where
  lastMessageTime : Option Int
  lastSpeechTime : Option Int
  quality : Quality
  reconnectAttempts : Nat
  isReconnecting : Bool
  totalMessages : Nat
  totalErrors : Nat
  connectionStartTime : Option Int
  lastConnectionTime : Option Int
  reconnections : List ReconnectionRecord
  qualityHistory : List QualitySnap
deriving DecidableEq, Repr

/-- The constructor's initial state. -/
def initialMonitorState : MonitorState :=
  { lastMessageTime := none
    lastSpeechTime := none
    quality := .unknown
    reconnectAttempts := 0
    isReconnecting := false
    totalMessages := 0
    totalErrors := 0
    connectionStartTime := none
    lastConnectionTime := none
    reconnections := []
    qualityHistory := [] }

/-- `_recordQualitySnapshot()`: push `{timestamp: Date.now(), quality}` and
filter out entries older than one minute. -/
def recordQualitySnapshot (s : MonitorState) (now : Int) : MonitorState :=
  let pushed := s.qualityHistory ++ [{ timestamp := now, quality := s.quality }]
  { s with qualityHistory := pushed.filter (fun snap => now - 60000 < snap.timestamp) }

/-- `_updateQuality(newQuality)`: set the quality (the `onQualityChange`
callback is I/O and not modelled). -/
def updateQuality (s : MonitorState) (q : Quality) : MonitorState :=
  { s with quality := q }

/-- The speech timestamp after the tick's VAD refresh
(`if (isSpeaking) this.lastSpeechTime = Date.now()`). -/
def refreshedSpeechTime (s : MonitorState) (now : Int) (isSpeaking : Bool) : Option Int :=
  if isSpeaking then some now else s.lastSpeechTime

/-- The tick's expecting-a-response test: `timeSinceLastSpeech <
this.config.speechGracePeriod`, where a never-set `lastSpeechTime` yields
`Infinity` in the source (so the comparison is false). -/
def expectingResponse (cfg : HealthConfig) (lastSpeech : Option Int) (now : Int) : Bool :=
  match lastSpeech with
  | some t => decide (now - t < cfg.speechGracePeriod)
  | none => false

/-- The adaptive zombie threshold
(`expectingResponse ? zombieTimeoutSpeaking : zombieTimeoutSilent`). -/
def zombieThresholdOf (cfg : HealthConfig) (expecting : Bool) : Int :=
  if expecting then cfg.zombieTimeoutSpeaking else cfg.zombieTimeoutSilent

/-- The zombie threshold a `_checkHealth` tick uses, as a function of the
pre-tick state and the VAD signal. -/
def tickZombieThreshold (cfg : HealthConfig) (s : MonitorState) (now : Int)
    (isSpeaking : Bool) : Int :=
  zombieThresholdOf cfg (expectingResponse cfg (refreshedSpeechTime s now isSpeaking) now)

/-- The quality cascade of `_checkHealth` (lines 292-300): dead / poor /
degraded / good by decreasing elapsed time since the last message. -/
def classifyDelta (cfg : HealthConfig) (zombieThreshold delta : Int) : Quality :=
  if delta ≥ zombieThreshold then .dead
  else if delta ≥ cfg.poorThreshold then .poor
  else if delta ≥ cfg.degradedThreshold then .degraded
  else .good

/-- `_checkHealth()`: one tick of the heartbeat interval.  Returns the new
state and whether the reconnection-needed callback fired.  The callback is
modelled as installed (`this.onReconnectNeeded` non-null). -/
def checkHealth (cfg : HealthConfig) (s : MonitorState) (now : Int)
    (isSpeaking : Bool) : MonitorState × Bool :=
  match s.lastMessageTime with
  | none => (s, false)
  | some lastMsg =>
    let timeSinceLastMessage := now - lastMsg
    let s1 : MonitorState := { s with lastSpeechTime := refreshedSpeechTime s now isSpeaking }
    let zombieThreshold := zombieThresholdOf cfg
      (expectingResponse cfg s1.lastSpeechTime now)
    let newQuality := classifyDelta cfg zombieThreshold timeSinceLastMessage
    if newQuality ≠ s1.quality then
      let fired := newQuality = Quality.dead ∧ ¬s1.isReconnecting
      let s2 := updateQuality s1 newQuality
      (recordQualitySnapshot s2 now, decide fired)
    else
      (recordQualitySnapshot s1 now, false)

/-- `recordMessage()`. -/
def recordMessage (s : MonitorState) (now : Int) : MonitorState :=
  { s with lastMessageTime := some now, totalMessages := s.totalMessages + 1 }

/-- `start()`: reset liveness bookkeeping.  Note the source first sets
`quality = 'good'`, then calls `stop()` which ends with
`_updateQuality('offline')`, and finally records a quality snapshot; so the
post-`start()` quality is `offline` until the first tick. -/
def startMonitor (s : MonitorState) (now : Int) : MonitorState :=
  let s1 : MonitorState :=
    { s with lastMessageTime := some now
             quality := .good
             connectionStartTime := some now
             lastConnectionTime := some now
             reconnectAttempts := 0
             isReconnecting := false }
  let s2 := updateQuality s1 .offline
  recordQualitySnapshot s2 now

/-- `reconnectionSucceeded()`: append a success record, reset the attempt
counter, and restart monitoring. -/
def reconnectionSucceeded (s : MonitorState) (now : Int) : MonitorState :=
  let record : ReconnectionRecord :=
    { timestamp := now
      attempts := s.reconnectAttempts
      success := true
      -- JS: `Date.now() - this.stats.lastConnectionTime`; `null` coerces to 0.
      duration := now - (s.lastConnectionTime.getD 0) }
  let s1 : MonitorState :=
    { s with reconnections := s.reconnections ++ [record]
             reconnectAttempts := 0
             isReconnecting := false }
  startMonitor s1 now

/-- `reconnectionFailed()`: increment the attempt counter; on reaching the
configured maximum, append a failure record, go offline, and return `false`
("give up"); otherwise return `true` ("keep trying"). -/
def reconnectionFailed (cfg : HealthConfig) (s : MonitorState) (now : Int) :
    MonitorState × Bool :=
  let s1 : MonitorState := { s with reconnectAttempts := s.reconnectAttempts + 1 }
  if s1.reconnectAttempts ≥ cfg.maxReconnectAttempts then
    let record : ReconnectionRecord :=
      { timestamp := now
        attempts := s1.reconnectAttempts
        success := false
        duration := now - (s1.lastConnectionTime.getD 0) }
    let s2 : MonitorState :=
      { s1 with reconnections := s1.reconnections ++ [record]
                isReconnecting := false }
    (updateQuality s2 .offline, false)
  else
    (s1, true)

/-- `getNextBackoff()`:
`Math.min(initialBackoff * Math.pow(2, reconnectAttempts), maxBackoff)`. -/
def getNextBackoff (cfg : HealthConfig) (reconnectAttempts : Nat) : Int :=
  min (cfg.initialBackoff * 2 ^ reconnectAttempts) cfg.maxBackoff

/-- The object returned by `getHealth()` (by value; reference sharing is
studied separately in the heap model below). -/
structure HealthSnapshot where
  type_ : Unit
  quality : Quality
  timeSinceLastMessage : Option Int
  isReconnecting : Bool
  reconnectAttempts : Nat
  totalMessages : Nat
  totalErrors : Nat
  uptime : Int
  reconnectionCount : Nat
  reconnections : List ReconnectionRecord
  qualityHistory : List QualitySnap
  config : HealthConfig
deriving DecidableEq, Repr

/-- `slice(-n)`: the last `n` elements of a list. -/
def sliceLast (n : Nat) (l : List α) : List α :=
  l.drop (l.length - n)

/-- `getHealth()` (content view). -/
def getHealth (cfg : HealthConfig) (s : MonitorState) (now : Int) : HealthSnapshot :=
  { type_ := ()
    quality := s.quality
    timeSinceLastMessage := s.lastMessageTime.map (fun t => now - t)
    isReconnecting := s.isReconnecting
    reconnectAttempts := s.reconnectAttempts
    totalMessages := s.totalMessages
    totalErrors := s.totalErrors
    uptime := match s.connectionStartTime with
              | some t => now - t
              | none => 0
    reconnectionCount := s.reconnections.length
    reconnections := s.reconnections
    qualityHistory := sliceLast 60 s.qualityHistory
    config := cfg }

/-- Six consecutive reconnection outcomes (successes) recorded from a fresh
monitor, one second apart. -/
def monitorAfterSixOutcomes : MonitorState :=
  reconnectionSucceeded (reconnectionSucceeded (reconnectionSucceeded
    (reconnectionSucceeded (reconnectionSucceeded (reconnectionSucceeded
      initialMonitorState 1000) 2000) 3000) 4000) 5000) 6000

/-! ## AudioLatencyTrackManager (src/unnamed/part_004)

Numbers here are `performance.now()` timestamps, audio-timeline offsets and
durations in milliseconds; they are JavaScript doubles and may be fractional,
so they are modelled as rationals.  DOM updates (`updateLatencyDisplay`, the
VAD indicator) are I/O and not modelled; `detectVoice` is a pure function of
the audio buffer, so the buffer is represented by its derived attributes
(duration, voice-detected flag).  `LATENCY_TRACKING_ENABLED` is `true` in
constants.js, so the early-return guards of the handlers never fire. -/

/-- The statistics object of `getLatencyStats`. -/
structure LatencyStats where
  average : ℚ
  min : ℚ
  max : ℚ
  p95 : ℚ
deriving DecidableEq, Repr

/-- Insert into a sorted list (ascending). -/
def sortedInsert (x : ℚ) : List ℚ → List ℚ
  | [] => [x]
  | y :: ys => if x ≤ y then x :: y :: ys else y :: sortedInsert x ys

/-- The observable result of `latencies.sort((a, b) => a - b)`: the same
multiset in ascending numeric order.  (Any correct sort of numbers under this
comparator yields this list; `Array.prototype.sort` mutates the array in
place.) -/
def numericSort : List ℚ → List ℚ
  | [] => []
  | x :: xs => sortedInsert x (numericSort xs)

/-- `getLatencyStats(latencies)`: zero stats on an empty window, otherwise
average, min, max and 95th percentile of the sorted window.  The p95 index
`Math.floor(sorted.length * 0.95)` equals `length * 95 / 100` (integer
division) for every length the 100-bounded windows can reach. -/
def getLatencyStats (latencies : List ℚ) : LatencyStats :=
  if latencies.length = 0 then { average := 0, min := 0, max := 0, p95 := 0 }
  else
    let sorted := numericSort latencies
    let sum := sorted.foldl (· + ·) 0
    { average := sum / (latencies.length : ℚ)
      min := sorted.headD 0
      max := sorted.getLastD 0
      p95 := sorted.getD (latencies.length * 95 / 100) 0 }

/-- `_pushLatency(arr, latency, displayKey)`: push, drop the head when the
length exceeds 100, then call `getLatencyStats(arr)` — whose
`latencies.sort((a, b) => a - b)` sorts the same array in place, so the
stored window ends up in ascending order, not append order.  The returned
list is the array's contents after the call. -/
def pushLatency (arr : List ℚ) (latency : ℚ) : List ℚ :=
  let arr1 := arr ++ [latency]
  let arr2 := if arr1.length > 100 then arr1.tail else arr1
  numericSort arr2

/-- An entry of `customerAudioChunks` / `agentAudioChunks`
(`{ sentAt, audioStartMs, audioEndMs }`). -/
structure AudioChunk where
  sentAt : ℚ
  audioStartMs : ℚ
  audioEndMs : ℚ
deriving DecidableEq, Repr

/-- The containment test of `findChunkByAudioTime`'s first loop:
`audioTimeMs >= chunk.audioStartMs && audioTimeMs <= chunk.audioEndMs`. -/
def chunkContains (c : AudioChunk) (t : ℚ) : Bool :=
  decide (c.audioStartMs ≤ t) && decide (t ≤ c.audioEndMs)

/-- `findChunkByAudioTime(audioChunks, audioTimeMs)`: first forward scan for
a chunk whose interval contains the time; else backward scan for the last
chunk whose end offset is ≤ the time; else null. -/
def findChunkByAudioTime (audioChunks : List AudioChunk) (audioTimeMs : ℚ) :
    Option AudioChunk :=
  match audioChunks.find? (fun c => chunkContains c audioTimeMs) with
  | some c => some c
  | none => audioChunks.reverse.find? (fun c => decide (c.audioEndMs ≤ audioTimeMs))

/-- The per-participant slice of the manager's state touched by the queue
handlers.  The `other…` fields belong to the opposite participant and are
only read here (they are written by the opposite participant's handlers). -/
structure TrackState where
  audioChunks : List AudioChunk
  cumulativeAudioTime : ℚ
  concludedTargetTranscriptTimes : List (ℚ × ℚ)
  transcriptionLatencies : List ℚ
  translationLatencies : List ℚ
  ttsDeltaLatencies : List ℚ
  firstVoiceDetected : Option ℚ
  lastVoiceDetected : Option ℚ
  lastSynthesizedAudio : Option ℚ
  otherLastSynthesizedAudio : Option ℚ
  otherLastVoiceDetected : Option ℚ
  crossSynthToVoiceLatencies : List ℚ
  synthToSynthLatencies : List ℚ
  voiceToSynthLatencies : List ℚ
deriving DecidableEq, Repr

/-- `_handleAudio(type, buffer, now)`: append the chunk with its cumulative
audio interval, trim to the last 100, advance the cumulative time; on voice,
refresh `lastVoiceDetected` and, when the other participant synthesized
after our `firstVoiceDetected` (JS: a 0 timestamp is falsy, a null
`firstVoiceDetected` compares as 0), refresh `firstVoiceDetected` and record
the cross-participant synthesis-to-voice latency. -/
def handleAudio (s : TrackState) (durationMs : ℚ) (voiceDetected : Bool)
    (now : ℚ) : TrackState :=
  let chunk : AudioChunk :=
    { sentAt := now
      audioStartMs := s.cumulativeAudioTime
      audioEndMs := s.cumulativeAudioTime + durationMs }
  let s1 : TrackState :=
    { s with audioChunks := sliceLast 100 (s.audioChunks ++ [chunk])
             cumulativeAudioTime := s.cumulativeAudioTime + durationMs }
  if voiceDetected then
    let s2 : TrackState := { s1 with lastVoiceDetected := some now }
    match s2.otherLastSynthesizedAudio with
    | some o =>
      if o ≠ 0 ∧ (s2.firstVoiceDetected.getD 0) < o then
        { s2 with firstVoiceDetected := some now
                  crossSynthToVoiceLatencies :=
                    pushLatency s2.crossSynthToVoiceLatencies (now - o) }
      else s2
    | none => s2
  else s1

/-- `_handleTranscript(type, receivedAt, audioEndTime)`: correlate the event
against the chunk timeline; on a match record `receivedAt − chunk.sentAt`,
otherwise only log (drop the sample). -/
def handleTranscript (s : TrackState) (receivedAt audioEndTime : ℚ) : TrackState :=
  match findChunkByAudioTime s.audioChunks audioEndTime with
  | some chunk =>
    { s with transcriptionLatencies :=
        pushLatency s.transcriptionLatencies (receivedAt - chunk.sentAt) }
  | none => s

/-- `_handleTranslation(type, receivedAt, audioEndTime)`: record the
concluded-transcript time (trimmed to the last 100), then correlate as for
transcripts into the translation window. -/
def handleTranslation (s : TrackState) (receivedAt audioEndTime : ℚ) : TrackState :=
  let s1 : TrackState :=
    { s with concludedTargetTranscriptTimes :=
        sliceLast 100 (s.concludedTargetTranscriptTimes ++ [(receivedAt, audioEndTime)]) }
  match findChunkByAudioTime s1.audioChunks audioEndTime with
  | some chunk =>
    { s1 with translationLatencies :=
        pushLatency s1.translationLatencies (receivedAt - chunk.sentAt) }
  | none => s1

/-- `_handleSynthesis(type, now)`: record the translation-to-synthesis delta
against the most recent concluded transcript, then the two cross-participant
latencies when the other side acted after our last synthesis (JS nullish and
0-falsy handling as in `handleAudio`), and finally refresh
`lastSynthesizedAudio`. -/
def handleSynthesis (s : TrackState) (now : ℚ) : TrackState :=
  let s1 : TrackState :=
    match s.concludedTargetTranscriptTimes.getLast? with
    | some lastTranscript =>
      { s with ttsDeltaLatencies :=
          pushLatency s.ttsDeltaLatencies (now - lastTranscript.1) }
    | none => s
  let s2 : TrackState :=
    match s1.otherLastSynthesizedAudio with
    | some o =>
      if o ≠ 0 ∧ (s1.lastSynthesizedAudio.getD 0) < o then
        { s1 with synthToSynthLatencies := pushLatency s1.synthToSynthLatencies (now - o) }
      else s1
    | none => s1
  let s3 : TrackState :=
    match s2.otherLastVoiceDetected with
    | some o =>
      if o ≠ 0 ∧ (s2.lastSynthesizedAudio.getD 0) < o then
        { s2 with voiceToSynthLatencies := pushLatency s2.voiceToSynthLatencies (now - o) }
      else s2
    | none => s2
  { s3 with lastSynthesizedAudio := some now }

/-- A queued telemetry event, as pushed by `enqueueAudio` /
`enqueueTranscription` / `enqueueTranslation` / `enqueueSynthesis`.  The
audio buffer is represented by its derived attributes (duration and the
`detectVoice` outcome). -/
inductive QItem where
  | audio (durationMs : ℚ) (voiceDetected : Bool) (timestamp : ℚ)
  | transcript (receivedAt audioEndTime : ℚ)
  | translation (receivedAt audioEndTime : ℚ)
  | synthesis (timestamp : ℚ)
deriving DecidableEq, Repr

/-- The dispatch of `_drain()`'s switch to the four handlers. -/
def handleItem (s : TrackState) : QItem → TrackState
  | .audio durationMs voiceDetected timestamp => handleAudio s durationMs voiceDetected timestamp
  | .transcript receivedAt audioEndTime => handleTranscript s receivedAt audioEndTime
  | .translation receivedAt audioEndTime => handleTranslation s receivedAt audioEndTime
  | .synthesis timestamp => handleSynthesis s timestamp

/-- The queue machine: the FIFO `this._queue`, the accumulator state the
handlers mutate, and two logs (ghost variables): every event ever enqueued
and every event popped and applied, each in order. -/
structure QueueMachine where
  queue : List QItem
  track : TrackState
  processedLog : List QItem
  enqueuedLog : List QItem

/-- An atomic scheduler step.  `enqueue` is one `enqueueX` call
(`this._queue.push(...)`; the `postMessage` only schedules `_drain`).
`drainPop` is one iteration of `_drain`'s while loop: it re-checks emptiness
and pops and applies the head; a drain invocation finding an empty queue (a
re-entrantly scheduled drain whose work was already done) changes nothing. -/
inductive QAction where
  | enqueue (item : QItem)
  | drainPop

/-- One scheduler step. -/
def qstep (m : QueueMachine) : QAction → QueueMachine
  | .enqueue item =>
    { m with queue := m.queue ++ [item], enqueuedLog := m.enqueuedLog ++ [item] }
  | .drainPop =>
    match m.queue with
    | [] => m
    | item :: rest =>
      { m with queue := rest
               track := handleItem m.track item
               processedLog := m.processedLog ++ [item] }

/-- Run a sequence of scheduler steps. -/
def qrun (m : QueueMachine) (actions : List QAction) : QueueMachine :=
  actions.foldl qstep m

/-- The machine at startup: empty queue, empty logs. -/
def initQueueMachine (s0 : TrackState) : QueueMachine :=
  { queue := [], track := s0, processedLog := [], enqueuedLog := [] }

/-- The ordering invariant: the processed log followed by the pending queue
is exactly the enqueue log, and the accumulator equals the handlers folded
over the processed log in order. -/
def QueueInvariant (s0 : TrackState) (m : QueueMachine) : Prop :=
  m.processedLog ++ m.queue = m.enqueuedLog ∧
  m.track = m.processedLog.foldl handleItem s0

/-- Repeated `_pushLatency` appends into one window, starting empty: the
contents of a per-stage latency window after a sequence of samples. -/
def pushSeq (samples : List ℚ) : List ℚ :=
  samples.foldl pushLatency []

/-- 101 samples: 2, then 1, then ninety-eight 3s, then 4.  The last 100 of
these are 1, the 3s and 4 — the eviction at the 101st append should drop the
earliest sample, 2. -/
def evictionSamples : List ℚ := 2 :: 1 :: (List.replicate 98 3 ++ [4])

/-- The claim's concrete example: chunks covering [0,100], [100,200],
[200,300] ms of the audio timeline, sent at t = 0, 100, 200. -/
def exampleChunks : List AudioChunk :=
  [{ sentAt := 0, audioStartMs := 0, audioEndMs := 100 },
   { sentAt := 100, audioStartMs := 100, audioEndMs := 200 },
   { sentAt := 200, audioStartMs := 200, audioEndMs := 300 }]

/-- A participant state holding the example chunks and no latency samples. -/
def exampleTrackState : TrackState :=
  { audioChunks := exampleChunks
    cumulativeAudioTime := 300
    concludedTargetTranscriptTimes := []
    transcriptionLatencies := []
    translationLatencies := []
    ttsDeltaLatencies := []
    firstVoiceDetected := none
    lastVoiceDetected := none
    lastSynthesizedAudio := none
    otherLastSynthesizedAudio := none
    otherLastVoiceDetected := none
    crossSynthToVoiceLatencies := []
    synthToSynthLatencies := []
    voiceToSynthLatencies := [] }

/-! ### Reference semantics of the health snapshot

`getHealth()` builds its snapshot with `reconnections: this.stats.reconnections`
and `config: this.config` — the monitor's own mutable array and object, not
copies — while `qualityHistory` goes through `slice(-60)`, which allocates a
fresh array.  To settle whether the snapshot has copy-out semantics we model
object identity explicitly: mutable objects live at addresses in a heap, and
the snapshot records which addresses it hands out. -/

/-- The monitor's heap-allocated mutable parts: the addresses of
`this.config` and `this.stats.reconnections` and the heaps they live in. -/
structure MonitorHeap where
  cfgAddr : Nat
  recAddr : Nat
  cfgHeap : Nat → HealthConfig
  recHeap : Nat → List ReconnectionRecord

/-- The configuration the monitor itself reads (e.g. on the next tick). -/
def monitorConfigVal (m : MonitorHeap) : HealthConfig := m.cfgHeap m.cfgAddr

/-- The ledger the monitor itself reads. -/
def monitorLedgerVal (m : MonitorHeap) : List ReconnectionRecord := m.recHeap m.recAddr

/-- The references carried by a `getHealth()` snapshot.  Per the source,
`config` and `stats.reconnections` are the monitor's own addresses (no copy
is taken); `qualityHistory` is a fresh list built by `slice(-60)`. -/
structure SnapshotRefs where
  cfgAddr : Nat
  recAddr : Nat
  qualityHistoryCopy : List QualitySnap

/-- `getHealth()` in the heap model. -/
def getHealthRefs (m : MonitorHeap) (history : List QualitySnap) : SnapshotRefs :=
  { cfgAddr := m.cfgAddr
    recAddr := m.recAddr
    qualityHistoryCopy := sliceLast 60 history }

/-- A caller's write through a config reference
(e.g. `snapshot.config.poorThreshold = …` on the returned snapshot). -/
def writeConfigAt (m : MonitorHeap) (a : Nat) (c : HealthConfig) : MonitorHeap :=
  { m with cfgHeap := fun x => if x = a then c else m.cfgHeap x }

/-- A caller's push through a reconnections reference
(e.g. `snapshot.stats.reconnections.push(…)` on the returned snapshot). -/
def pushLedgerAt (m : MonitorHeap) (a : Nat) (r : ReconnectionRecord) : MonitorHeap :=
  { m with recHeap := fun x => if x = a then m.recHeap x ++ [r] else m.recHeap x }

/-- A monitor heap with the default config at address 0 and an empty ledger
at address 1. -/
def exampleHeap : MonitorHeap :=
  { cfgAddr := 0
    recAddr := 1
    cfgHeap := fun _ => defaultHealthConfig
    recHeap := fun _ => [] }

set_option maxRecDepth 4000

/-- C3 sanity: backoff values with default configuration. -/
example : getNextBackoff defaultHealthConfig 0 = 1000 := by decide

example : getNextBackoff defaultHealthConfig 5 = 30000 := by decide

/-- **C3**: `getNextBackoff()` returns
`min(initialBackoff × 2^reconnectAttempts, maxBackoff)` for every
configuration and attempt count, and with the default configuration the calls
after 0, 1, 2, 3, 4 prior failed attempts return 1000, 2000, 4000, 8000,
16000 ms, while the call after 5 failed attempts is capped at 30000 ms. -/
theorem backoff_exponential_capped :
    (∀ (cfg : HealthConfig) (n : Nat),
      getNextBackoff cfg n = min (cfg.initialBackoff * 2 ^ n) cfg.maxBackoff) ∧
    getNextBackoff defaultHealthConfig 0 = 1000 ∧
    getNextBackoff defaultHealthConfig 1 = 2000 ∧
    getNextBackoff defaultHealthConfig 2 = 4000 ∧
    getNextBackoff defaultHealthConfig 3 = 8000 ∧
    getNextBackoff defaultHealthConfig 4 = 16000 ∧
    getNextBackoff defaultHealthConfig 5 = 30000 := by
  refine ⟨fun cfg n => rfl, ?_, ?_, ?_, ?_, ?_, ?_⟩ <;> decide

/-- A `_checkHealth` tick with a recorded last-message time sets the quality
to the threshold cascade applied to `Δ = now − lastMessageTime`, with the
zombie threshold selected by the expecting-response test. -/
theorem checkHealth_quality_eq (cfg : HealthConfig) (s : MonitorState) (now : Int)
    (isSpeaking : Bool) (t : Int) (h : s.lastMessageTime = some t) :
    (checkHealth cfg s now isSpeaking).1.quality
      = classifyDelta cfg (tickZombieThreshold cfg s now isSpeaking) (now - t) := by
  simp only [checkHealth, h, tickZombieThreshold]
  split
  · simp [recordQualitySnapshot, updateQuality]
  · next hne =>
    simp only [ne_eq, Decidable.not_not] at hne
    simpa [recordQualitySnapshot] using hne.symm

/-- The threshold cascade, read as interval biconditionals, under the
(default-satisfied) ordering `degraded ≤ poor ≤ zombie`. -/
theorem classifyDelta_iff (cfg : HealthConfig) (zt delta : Int)
    (h1 : cfg.degradedThreshold ≤ cfg.poorThreshold) (h2 : cfg.poorThreshold ≤ zt) :
    (classifyDelta cfg zt delta = .dead ↔ zt ≤ delta) ∧
    (classifyDelta cfg zt delta = .poor ↔ cfg.poorThreshold ≤ delta ∧ delta < zt) ∧
    (classifyDelta cfg zt delta = .degraded ↔
      cfg.degradedThreshold ≤ delta ∧ delta < cfg.poorThreshold) ∧
    (classifyDelta cfg zt delta = .good ↔ delta < cfg.degradedThreshold) := by
  unfold classifyDelta
  split_ifs with hz hp hd <;>
    refine ⟨⟨fun hq => ?_, fun hq => ?_⟩, ⟨fun hq => ?_, fun hq => ?_⟩,
            ⟨fun hq => ?_, fun hq => ?_⟩, ⟨fun hq => ?_, fun hq => ?_⟩⟩ <;>
    first
      | omega
      | rfl
      | (exact absurd hq (by simp))

/-- **C1**: for every tick with a recorded last-message time, with
`Δ = now − lastMessageTime` and the zombie threshold selected by the
expecting-response test, the computed quality is exactly the cascade
dead / poor / degraded / good; and whenever
`degradedThreshold ≤ poorThreshold ≤ zombieThreshold` (true for the defaults
3000/5000 with either zombie threshold 10000 or 60000) the qualities are
characterized by the interval biconditionals of the claim. -/
theorem tick_quality_classification (cfg : HealthConfig) (s : MonitorState)
    (now : Int) (isSpeaking : Bool) (t : Int)
    (h : s.lastMessageTime = some t)
    (h1 : cfg.degradedThreshold ≤ cfg.poorThreshold)
    (h2 : cfg.poorThreshold ≤ tickZombieThreshold cfg s now isSpeaking) :
    (checkHealth cfg s now isSpeaking).1.quality
        = classifyDelta cfg (tickZombieThreshold cfg s now isSpeaking) (now - t) ∧
    ((checkHealth cfg s now isSpeaking).1.quality = .dead ↔
        tickZombieThreshold cfg s now isSpeaking ≤ now - t) ∧
    ((checkHealth cfg s now isSpeaking).1.quality = .poor ↔
        cfg.poorThreshold ≤ now - t ∧ now - t < tickZombieThreshold cfg s now isSpeaking) ∧
    ((checkHealth cfg s now isSpeaking).1.quality = .degraded ↔
        cfg.degradedThreshold ≤ now - t ∧ now - t < cfg.poorThreshold) ∧
    ((checkHealth cfg s now isSpeaking).1.quality = .good ↔
        now - t < cfg.degradedThreshold) := by
  have hq := checkHealth_quality_eq cfg s now isSpeaking t h
  have hiff := classifyDelta_iff cfg (tickZombieThreshold cfg s now isSpeaking) (now - t) h1 h2
  rw [hq]
  exact ⟨rfl, hiff.1, hiff.2.1, hiff.2.2.1, hiff.2.2.2⟩

/-- Witness for C1 at a concrete input: defaults, never spoke (silent
threshold 60000), last message 4000 ms ago: the tick classifies `degraded`,
and the biconditionals hold at this input. -/
theorem tick_quality_classification_witness :
    (checkHealth defaultHealthConfig
        { initialMonitorState with lastMessageTime := some 0 } 4000 false).1.quality
      = .degraded :=
  ((tick_quality_classification defaultHealthConfig
      { initialMonitorState with lastMessageTime := some 0 } 4000 false 0
      rfl (by decide) (by decide)).2.2.2.1).mpr (by decide)

/-- **C2**: the speaking (10 s default) zombie threshold is used exactly when
`now − lastSpeechAt < speechGracePeriod`, where `lastSpeechAt` is refreshed to
`now` on a tick whose VAD signal reports speech and a never-set value counts
as infinitely old; with defaults and no further speech after `t0`, a tick uses
10000 ms while `now − t0 < 5000` and 60000 ms thereafter, and the tick's
quality is computed against the threshold so selected. -/
theorem tick_adaptive_zombie_threshold (cfg : HealthConfig) (s : MonitorState)
    (now : Int) (isSpeaking : Bool)
    (hdist : cfg.zombieTimeoutSpeaking ≠ cfg.zombieTimeoutSilent) :
    (isSpeaking = true → refreshedSpeechTime s now isSpeaking = some now) ∧
    (isSpeaking = false → refreshedSpeechTime s now isSpeaking = s.lastSpeechTime) ∧
    (∀ u, refreshedSpeechTime s now isSpeaking = some u →
      ((tickZombieThreshold cfg s now isSpeaking = cfg.zombieTimeoutSpeaking ↔
          now - u < cfg.speechGracePeriod) ∧
       (tickZombieThreshold cfg s now isSpeaking = cfg.zombieTimeoutSilent ↔
          ¬ now - u < cfg.speechGracePeriod))) ∧
    (refreshedSpeechTime s now isSpeaking = none →
      tickZombieThreshold cfg s now isSpeaking = cfg.zombieTimeoutSilent) ∧
    (∀ t0 : Int, s.lastSpeechTime = some t0 → isSpeaking = false →
      cfg = defaultHealthConfig →
      tickZombieThreshold cfg s now isSpeaking
        = if now - t0 < 5000 then 10000 else 60000) ∧
    (∀ t, s.lastMessageTime = some t →
      (checkHealth cfg s now isSpeaking).1.quality
        = classifyDelta cfg (tickZombieThreshold cfg s now isSpeaking) (now - t)) := by
  refine ⟨?_, ?_, ?_, ?_, ?_, ?_⟩
  · intro h; simp [refreshedSpeechTime, h]
  · intro h; simp [refreshedSpeechTime, h]
  · intro u hu
    simp only [tickZombieThreshold, hu, expectingResponse, zombieThresholdOf]
    by_cases hlt : now - u < cfg.speechGracePeriod <;>
      simp [hlt, hdist, Ne.symm hdist]
  · intro hu
    simp [tickZombieThreshold, hu, expectingResponse, zombieThresholdOf]
  · intro t0 ht0 hspeak hcfg
    subst hcfg
    simp only [tickZombieThreshold, refreshedSpeechTime, hspeak, if_neg, ht0,
      expectingResponse, zombieThresholdOf, Bool.false_eq_true, if_false]
    by_cases hlt : now - t0 < (5000 : Int)
    · simp only [defaultHealthConfig] at hlt ⊢
      simp [hlt]
    · simp only [defaultHealthConfig] at hlt ⊢
      simp [hlt]
  · intro t ht
    exact checkHealth_quality_eq cfg s now isSpeaking t ht

/-- Witness for C2 at concrete inputs: defaults, speech last seen at `t0 = 0`,
silent ticks: the tick at 3000 ms uses the 10 s threshold, the tick at
5000 ms (exactly `t0 + 5000`) already uses the 60 s threshold. -/
theorem tick_adaptive_zombie_threshold_witness :
    tickZombieThreshold defaultHealthConfig
      { initialMonitorState with lastSpeechTime := some 0 } 3000 false = 10000 ∧
    tickZombieThreshold defaultHealthConfig
      { initialMonitorState with lastSpeechTime := some 0 } 5000 false = 60000 := by
  constructor
  · have h := (tick_adaptive_zombie_threshold defaultHealthConfig
      { initialMonitorState with lastSpeechTime := some 0 } 3000 false
      (by decide)).2.2.2.2.1 0 rfl rfl rfl
    simpa using h
  · have h := (tick_adaptive_zombie_threshold defaultHealthConfig
      { initialMonitorState with lastSpeechTime := some 0 } 5000 false
      (by decide)).2.2.2.2.1 0 rfl rfl rfl
    simpa using h

/-- **C4**: `reconnectionFailed()` always increments the attempt counter;
while the incremented counter is still below the maximum it returns "keep
trying" and changes nothing but the counter (in particular ledger, quality
and `isReconnecting` are untouched); the call on which the counter reaches
the maximum appends a `success := false` record whose `attempts` equals the
maximum, forces the quality to `offline`, clears `isReconnecting`, and
returns "give up". -/
theorem reconnectionFailed_protocol (cfg : HealthConfig) (s : MonitorState)
    (now : Int) :
    (reconnectionFailed cfg s now).1.reconnectAttempts = s.reconnectAttempts + 1 ∧
    (s.reconnectAttempts + 1 < cfg.maxReconnectAttempts →
      (reconnectionFailed cfg s now).2 = true ∧
      (reconnectionFailed cfg s now).1
        = { s with reconnectAttempts := s.reconnectAttempts + 1 }) ∧
    (s.reconnectAttempts + 1 = cfg.maxReconnectAttempts →
      (reconnectionFailed cfg s now).2 = false ∧
      (reconnectionFailed cfg s now).1.reconnections
        = s.reconnections ++
            [{ timestamp := now
               attempts := cfg.maxReconnectAttempts
               success := false
               duration := now - (s.lastConnectionTime.getD 0) }] ∧
      (reconnectionFailed cfg s now).1.quality = .offline ∧
      (reconnectionFailed cfg s now).1.isReconnecting = false) := by
  refine ⟨?_, ?_, ?_⟩
  · simp only [reconnectionFailed]
    split <;> simp [updateQuality]
  · intro hlt
    have hcond : ¬ s.reconnectAttempts + 1 ≥ cfg.maxReconnectAttempts := by omega
    simp [reconnectionFailed, hcond]
  · intro heq
    have hcond : s.reconnectAttempts + 1 ≥ cfg.maxReconnectAttempts := by omega
    simp [reconnectionFailed, hcond, updateQuality, heq]

/-- Witness for C4 at concrete inputs: with defaults, the first failure from
a fresh monitor keeps trying with everything but the counter unchanged, and
the failure from a state with 4 prior attempts gives up, appending a
`success:false`, `attempts:5` record and going offline. -/
theorem reconnectionFailed_protocol_witness :
    (reconnectionFailed defaultHealthConfig initialMonitorState 100).2 = true ∧
    (reconnectionFailed defaultHealthConfig
      { initialMonitorState with reconnectAttempts := 4, isReconnecting := true } 200).2
      = false ∧
    (reconnectionFailed defaultHealthConfig
      { initialMonitorState with reconnectAttempts := 4, isReconnecting := true } 200).1.reconnections
      = [{ timestamp := 200, attempts := 5, success := false, duration := 200 }] := by
  refine ⟨?_, ?_, ?_⟩
  · exact ((reconnectionFailed_protocol defaultHealthConfig initialMonitorState
      100).2.1 (by decide)).1
  · exact ((reconnectionFailed_protocol defaultHealthConfig
      { initialMonitorState with reconnectAttempts := 4, isReconnecting := true } 200).2.2
      (by decide)).1
  · have h := ((reconnectionFailed_protocol defaultHealthConfig
      { initialMonitorState with reconnectAttempts := 4, isReconnecting := true } 200).2.2
      (by decide)).2.1
    simpa using h

/-- **C6 counterexample**: after 6 recorded reconnection outcomes the ledger
held by the monitor — and the list returned by the health snapshot — contains
6 entries, not at most 5; in particular the claim "the ledger … contains at
most 5 entries" is false at this input. -/
theorem reconnection_ledger_not_bounded :
    monitorAfterSixOutcomes.reconnections.length = 6 ∧
    5 < monitorAfterSixOutcomes.reconnections.length ∧
    (getHealth defaultHealthConfig monitorAfterSixOutcomes 7000).reconnections.length = 6 := by
  refine ⟨by decide, by decide, by decide⟩

/-- **C6 amended**: the reconnection ledger is append-only and unbounded:
`reconnectionSucceeded()` and a final (maximum-reaching)
`reconnectionFailed()` each append exactly one record and never evict one, a
non-final `reconnectionFailed()` leaves it untouched, and `getHealth()`
returns the full ledger; hence after 6 recorded outcomes it contains all 6
records (the 5-entry truncation exists only in the debug-dashboard display). -/
theorem reconnection_ledger_append_only (cfg : HealthConfig) (s : MonitorState)
    (now : Int) :
    (reconnectionSucceeded s now).reconnections
      = s.reconnections ++
          [{ timestamp := now
             attempts := s.reconnectAttempts
             success := true
             duration := now - (s.lastConnectionTime.getD 0) }] ∧
    (s.reconnectAttempts + 1 ≥ cfg.maxReconnectAttempts →
      (reconnectionFailed cfg s now).1.reconnections
        = s.reconnections ++
            [{ timestamp := now
               attempts := s.reconnectAttempts + 1
               success := false
               duration := now - (s.lastConnectionTime.getD 0) }]) ∧
    (s.reconnectAttempts + 1 < cfg.maxReconnectAttempts →
      (reconnectionFailed cfg s now).1.reconnections = s.reconnections) ∧
    (getHealth cfg s now).reconnections = s.reconnections ∧
    monitorAfterSixOutcomes.reconnections.length = 6 := by
  refine ⟨?_, ?_, ?_, rfl, by decide⟩
  · simp [reconnectionSucceeded, startMonitor, updateQuality, recordQualitySnapshot]
  · intro hge
    simp [reconnectionFailed, hge, updateQuality]
  · intro hlt
    have hcond : ¬ s.reconnectAttempts + 1 ≥ cfg.maxReconnectAttempts := by omega
    simp [reconnectionFailed, hcond]

/-- Witness for the amended C6 at a concrete input: one success from a fresh
monitor leaves a single record, and a first failure appends nothing. -/
theorem reconnection_ledger_append_only_witness :
    (reconnectionSucceeded initialMonitorState 500).reconnections
      = [{ timestamp := 500, attempts := 0, success := true, duration := 500 }] ∧
    (reconnectionFailed defaultHealthConfig initialMonitorState 600).1.reconnections
      = [] := by
  constructor
  · have h := (reconnection_ledger_append_only defaultHealthConfig
      initialMonitorState 500).1
    simpa using h
  · have h := (reconnection_ledger_append_only defaultHealthConfig
      initialMonitorState 600).2.2.1 (by decide)
    simpa using h

theorem qstep_preserves_invariant (s0 : TrackState) (m : QueueMachine)
    (a : QAction) (h : QueueInvariant s0 m) : QueueInvariant s0 (qstep m a) := by
  obtain ⟨h1, h2⟩ := h
  cases a with
  | enqueue item =>
    refine ⟨?_, ?_⟩
    · simp only [qstep, ← h1, List.append_assoc]
    · simpa [qstep] using h2
  | drainPop =>
    cases hq : m.queue with
    | nil => simpa [qstep, hq] using ⟨h1, h2⟩
    | cons item rest =>
      refine ⟨?_, ?_⟩
      · simp only [qstep]
        rw [← h1, hq, List.append_assoc]
        rfl
      · simp only [qstep, hq, List.foldl_append, List.foldl_cons, List.foldl_nil, h2]

theorem qrun_preserves_invariant (s0 : TrackState) (actions : List QAction) :
    ∀ m : QueueMachine, QueueInvariant s0 m → QueueInvariant s0 (qrun m actions) := by
  induction actions with
  | nil => intro m h; exact h
  | cons a rest ih =>
    intro m h
    exact ih (qstep m a) (qstep_preserves_invariant s0 m a h)

/-- **C8**: for every interleaving of enqueue steps and drain-loop
iterations starting from an empty queue, the events applied to the
accumulators are, in order, a prefix of the enqueue order — the processed log
followed by the still-pending queue is exactly the enqueue log, so nothing is
processed twice, nothing is reordered (an event enqueued earlier is applied
before a later one's handler runs, so a translation enqueued after an audio
chunk sees that chunk's state change), events enqueued mid-drain are
processed by the same re-checking loop — and the accumulator state is the
handler fold over the processed log in enqueue order. -/
theorem queue_processes_in_enqueue_order (s0 : TrackState) (actions : List QAction) :
    (qrun (initQueueMachine s0) actions).processedLog
        ++ (qrun (initQueueMachine s0) actions).queue
      = (qrun (initQueueMachine s0) actions).enqueuedLog ∧
    (qrun (initQueueMachine s0) actions).track
      = (qrun (initQueueMachine s0) actions).processedLog.foldl handleItem s0 := by
  exact qrun_preserves_invariant s0 actions (initQueueMachine s0) ⟨rfl, rfl⟩

/-- **C10**: statistics on an empty latency window are all zero (average,
min, max, p95), rather than an error or undefined values. -/
theorem getLatencyStats_empty_window :
    getLatencyStats [] = { average := 0, min := 0, max := 0, p95 := 0 } := rfl

/-- **C7 (code bug)**: the latency windows are not kept in append order and
the eviction at 101 samples does not remove the earliest-appended sample.
`getLatencyStats`'s `latencies.sort((a, b) => a - b)` sorts the window array
in place on every `_pushLatency` call, so after appending 5 then 3 the window
is `[3, 5]` (sorted), not `[5, 3]` (append order); and after the 101 samples
of `evictionSamples` the `shift()` has evicted the minimum of the first 100
samples — the window retains no 1 (the second-appended sample) while it still
holds 2 (the earliest-appended sample, which a sliding window of the most
recent 100 would have evicted). -/
theorem pushLatency_sorts_and_evicts_minimum :
    pushSeq [5, 3] = [3, 5] ∧
    pushSeq evictionSamples = 2 :: (List.replicate 98 3 ++ [4]) ∧
    (pushSeq evictionSamples).count 1 = 0 ∧
    (pushSeq evictionSamples).count 2 = 1 := by
  refine ⟨by decide, by decide, by decide, by decide⟩

theorem mem_sortedInsert (x y : ℚ) (l : List ℚ) :
    x ∈ sortedInsert y l ↔ x = y ∨ x ∈ l := by
  induction l with
  | nil => simp [sortedInsert]
  | cons a as ih =>
    simp only [sortedInsert]
    split
    · simp [List.mem_cons]
    · simp only [List.mem_cons, ih]
      tauto

theorem mem_numericSort (x : ℚ) (l : List ℚ) : x ∈ numericSort l ↔ x ∈ l := by
  induction l with
  | nil => simp [numericSort]
  | cons a as ih => simp [numericSort, mem_sortedInsert, ih]

/-- The sample just pushed is always present in the window `_pushLatency`
leaves behind (the `shift()` can only remove an older entry). -/
theorem self_mem_pushLatency (arr : List ℚ) (v : ℚ) : v ∈ pushLatency arr v := by
  unfold pushLatency
  simp only [mem_numericSort]
  split
  · cases arr with
    | nil => simp_all
    | cons a as => simp
  · simp

/-- A backward `find?` hit is the last element of the list satisfying the
predicate: everything after it fails the predicate. -/
theorem reverse_find?_eq_some {α : Type} {l : List α} {p : α → Bool} {c : α} :
    l.reverse.find? p = some c ↔
      p c = true ∧ ∃ pre post, l = pre ++ c :: post ∧ ∀ x ∈ post, p x = false := by
  rw [List.find?_eq_some]
  constructor
  · rintro ⟨hpc, as, bs, hrev, hall⟩
    refine ⟨hpc, bs.reverse, as.reverse, ?_, ?_⟩
    · have : l.reverse.reverse = (as ++ c :: bs).reverse := by rw [hrev]
      simpa [List.reverse_append] using this
    · intro x hx
      have := hall x (by simpa using hx)
      simpa using this
  · rintro ⟨hpc, pre, post, hl, hall⟩
    refine ⟨hpc, post.reverse, pre.reverse, ?_, ?_⟩
    · rw [hl]
      simp [List.reverse_append]
    · intro x hx
      have := hall x (by simpa using hx)
      simpa using this

/-- **C5**: event-to-chunk correlation.  `findChunkByAudioTime` returns a
chunk whose `[audioStartMs, audioEndMs]` interval contains the reported time
(the first such, in chunk order); when no interval contains it, it returns
the most recent chunk whose end offset is ≤ the reported time (no later
chunk's end offset is); when neither exists it returns nothing and
`_handleTranslation` drops the sample, appending no latency; a matched
translation event contributes exactly the latency
`receivedAt − matchedChunk.sentAt`. -/
theorem chunk_correlation (chunks : List AudioChunk) (t : ℚ) (s : TrackState)
    (receivedAt : ℚ) :
    (∀ c, findChunkByAudioTime chunks t = some c →
      (chunkContains c t = true ∧
          ∃ pre post, chunks = pre ++ c :: post ∧ ∀ x ∈ pre, chunkContains x t = false) ∨
      ((∀ x ∈ chunks, chunkContains x t = false) ∧ c.audioEndMs ≤ t ∧
          ∃ pre post, chunks = pre ++ c :: post ∧ ∀ x ∈ post, t < x.audioEndMs)) ∧
    (findChunkByAudioTime chunks t = none ↔
      (∀ x ∈ chunks, chunkContains x t = false) ∧ ∀ x ∈ chunks, t < x.audioEndMs) ∧
    (∀ c, findChunkByAudioTime s.audioChunks t = some c →
      (handleTranslation s receivedAt t).translationLatencies
          = pushLatency s.translationLatencies (receivedAt - c.sentAt) ∧
      (receivedAt - c.sentAt) ∈ (handleTranslation s receivedAt t).translationLatencies) ∧
    (findChunkByAudioTime s.audioChunks t = none →
      (handleTranslation s receivedAt t).translationLatencies
        = s.translationLatencies) := by
  refine ⟨?_, ?_, ?_, ?_⟩
  · intro c hc
    unfold findChunkByAudioTime at hc
    cases hfind : chunks.find? (fun c => chunkContains c t) with
    | some c0 =>
      rw [hfind] at hc
      obtain rfl : c0 = c := by simpa using hc
      left
      obtain ⟨hpc, as, bs, heq, hall⟩ := List.find?_eq_some.mp hfind
      exact ⟨hpc, as, bs, heq, fun x hx => by simpa using hall x hx⟩
    | none =>
      rw [hfind] at hc
      right
      have hnone := List.find?_eq_none.mp hfind
      obtain ⟨hpc, pre, post, heq, hall⟩ := reverse_find?_eq_some.mp hc
      refine ⟨fun x hx => by simpa using hnone x hx, by simpa using hpc,
        pre, post, heq, fun x hx => ?_⟩
      have := hall x hx
      simp only [decide_eq_false_iff_not, not_le] at this
      exact this
  · unfold findChunkByAudioTime
    cases hfind : chunks.find? (fun c => chunkContains c t) with
    | some c0 =>
      refine iff_of_false (by simp) ?_
      rintro ⟨hno, -⟩
      have hpc := List.find?_some hfind
      have := hno c0 (List.mem_of_find?_eq_some hfind)
      simp_all
    | none =>
      have hnone := List.find?_eq_none.mp hfind
      constructor
      · intro h
        have hrev := List.find?_eq_none.mp h
        refine ⟨fun x hx => by simpa using hnone x hx, fun x hx => ?_⟩
        have := hrev x (by simpa using hx)
        simpa using this
      · rintro ⟨-, hlt⟩
        apply List.find?_eq_none.mpr
        intro x hx
        have := hlt x (by simpa using hx)
        simp only [decide_eq_true_eq]
        exact not_le.mpr this
  · intro c hc
    unfold handleTranslation
    dsimp only
    rw [hc]
    exact ⟨rfl, self_mem_pushLatency _ _⟩
  · intro hc
    unfold handleTranslation
    dsimp only
    rw [hc]

/-- Witness for C5 at the claim's concrete input: a translation event with
`audioEndTime = 150` received at 500 matches the `[100,200]` chunk sent at
100 and records latency 400 ms. -/
theorem chunk_correlation_witness :
    findChunkByAudioTime exampleChunks 150
      = some { sentAt := 100, audioStartMs := 100, audioEndMs := 200 } ∧
    (handleTranslation exampleTrackState 500 150).translationLatencies = [400] := by
  have h := (chunk_correlation exampleChunks 150 exampleTrackState 500).2.2.1
    { sentAt := 100, audioStartMs := 100, audioEndMs := 200 } (by decide)
  refine ⟨by decide, ?_⟩
  have h400 : (500 : ℚ) -
      ({ sentAt := 100, audioStartMs := 100, audioEndMs := 200 } : AudioChunk).sentAt
        = 400 := by norm_num
  rw [h.1, h400]
  decide

/-- **C9 (code bug)**: the health snapshot does not have copy-out semantics.
The snapshot's `config` and `stats.reconnections` are the monitor's own
addresses, so mutating the returned snapshot changes the monitor: overwriting
`poorThreshold` with 999999 through the snapshot's config reference changes
the quality the monitor's own cascade computes for `Δ = 6000` from `poor` to
`degraded`, and pushing a record through the snapshot's reconnections reference
grows the monitor's own ledger.  (Only `qualityHistory` is copied.) -/
theorem getHealth_snapshot_aliases_monitor :
    (getHealthRefs exampleHeap []).cfgAddr = exampleHeap.cfgAddr ∧
    (getHealthRefs exampleHeap []).recAddr = exampleHeap.recAddr ∧
    monitorConfigVal (writeConfigAt exampleHeap (getHealthRefs exampleHeap []).cfgAddr
        { defaultHealthConfig with poorThreshold := 999999 })
      = { defaultHealthConfig with poorThreshold := 999999 } ∧
    classifyDelta (monitorConfigVal exampleHeap) 60000 6000 = .poor ∧
    classifyDelta
        (monitorConfigVal (writeConfigAt exampleHeap (getHealthRefs exampleHeap []).cfgAddr
          { defaultHealthConfig with poorThreshold := 999999 }))
        60000 6000
      = .degraded ∧
    monitorLedgerVal (pushLedgerAt exampleHeap (getHealthRefs exampleHeap []).recAddr
        { timestamp := 1, attempts := 1, success := true, duration := 1 })
      = [{ timestamp := 1, attempts := 1, success := true, duration := 1 }] := by
  refine ⟨rfl, rfl, by decide, by decide, by decide, by decide⟩
